import Mathlib

/-!
Shallow embedding of `streamlit_app.py` (site-visit-form-streamlit).

The PDF generation routine `generate_pdf` (source lines 53-170) is modelled
as a pure function from a report record to a list of drawing operations,
with the page/cursor state threaded explicitly.  Coordinates are rationals
(the source computes with Python floats over integer constants and one
division, `aspect = ih / iw`; all claim-relevant arithmetic is exact).
Font selection calls (`c.setFont`) place no content on the page and are not
modelled.  The letter page size is 612 x 792 points, so `height - 50 = 742`
and the other hard-coded offsets appear below as the literals the source
computes.

The temporary-file behaviour of `generate_pdf` (source line 63:
`tempfile.NamedTemporaryFile(delete=False)`) and of the button handler
(source lines 338-373) is modelled by threading an explicit file-system
state, and the module-level weather fetch (source lines 30-48) by a total
function over an outcome type that enumerates the failure modes caught by
its `except Exception` handler.
-/

namespace SiteVisit

/-- Python `str.strip()`: the string with whitespace removed from both
ends (written over the character list so that it evaluates by kernel
reduction). -/
def pyStrip (s : String) : String :=
  String.mk (((s.data.dropWhile Char.isWhitespace).reverse.dropWhile
    Char.isWhitespace).reverse)

/-- One drawing operation emitted by the canvas: a text draw
(`c.drawString(x, y, s)`) or an image draw
(`c.drawImage(img, x, y, width=w, height=h)`), tagged with the index of the
page it lands on (`c.showPage()` increments the page index). -/
inductive Op where
  | text (page : ℕ) (x y : ℚ) (s : String)
  | image (page : ℕ) (x y w h : ℚ)
deriving DecidableEq

/-- Page index of an operation. -/
def Op.page : Op → ℕ
  | .text p _ _ _ => p
  | .image p _ _ _ _ => p

/-- Horizontal coordinate of an operation. -/
def Op.xPos : Op → ℚ
  | .text _ x _ _ => x
  | .image _ x _ _ _ => x

/-- Vertical coordinate of an operation. -/
def Op.yPos : Op → ℚ
  | .text _ _ y _ => y
  | .image _ _ y _ _ => y

/-- The string drawn by a text operation (empty for image operations). -/
def Op.str : Op → String
  | .text _ _ _ s => s
  | .image _ _ _ _ _ => ""

/-- Cursor state of the text-flowing sections: current page index and the
vertical cursor `y_pos`. -/
structure PState where
  page : ℕ
  y : ℚ
deriving DecidableEq

/-- Cursor state of the image section: page index, horizontal cursor
`x_offset`, vertical cursor `y_pos`, and the placement counter `count`. -/
structure IState where
  page : ℕ
  x : ℚ
  y : ℚ
  count : ℕ
deriving DecidableEq

/-- One survey entry as stored in `survey_responses`:
`question ↦ (choice, desc)` (source lines 238-301). -/
structure SurveyEntry where
  question : String
  choice : String
  desc : String
deriving DecidableEq

/-- An uploaded image, abstracted to its decode result: `none` when
`ImageReader(img_bytes)` / `getSize()` raises, `some (iw, ih)` for intrinsic
width and height otherwise.  A width of `0` also raises in the source
(`aspect = ih / iw` is a `ZeroDivisionError`), which the `except` swallows. -/
abbrev ImgData := Option (ℚ × ℚ)

/-- Whether an image decodes without raising (so that the body of the image
loop runs past `aspect = ih / iw`). -/
def decodesB : ImgData → Bool
  | none => false
  | some (iw, _) => decide (iw ≠ 0)

/-- The complete input of `generate_pdf` (source line 53). -/
structure ReportRecord where
  visitor : String
  visit_date : String
  address : String
  current_time : String
  temperature : Option ℚ
  summary : String
  survey : List SurveyEntry
  images : List ImgData

/-- Header block of `generate_pdf` (source lines 67-86): title, visitor,
date, optional address line, time line, and — only when a temperature is
present — the temperature line.  Returns the emitted operations and the
final `y_pos`. -/
def headerOps (r : ReportRecord) : List Op × ℚ :=
  let ops0 : List Op :=
    [Op.text 0 50 742 "Site Visit Report",
     Op.text 0 50 712 ("Visitor: " ++ r.visitor),
     Op.text 0 300 712 ("Date: " ++ r.visit_date)]
  let addr : List Op × ℚ :=
    if pyStrip r.address = "" then ([], 692)
    else ([Op.text 0 50 692 ("Site Address: " ++ r.address)], 672)
  let timeOp := Op.text 0 50 addr.2 ("Time (America/Denver): " ++ r.current_time)
  let temp : List Op × ℚ :=
    match r.temperature with
    | none => ([], addr.2 - 20)
    | some t =>
        ([Op.text 0 50 (addr.2 - 20) ("Albuquerque Temp (°F): " ++ toString t)],
         addr.2 - 40)
  (ops0 ++ addr.1 ++ [timeOp] ++ temp.1, temp.2)

/-- Body of the survey loop (source lines 98-112): draw
`- {question} [{choice}]`, advance 18pt; if the description is non-blank,
draw the indented bullet line and advance 14pt more; then, if `y_pos < 120`,
start a new page at `y = 742`, draw the continued header and advance 20pt. -/
def surveyStep (s : PState) (e : SurveyEntry) : List Op × PState :=
  let qOp := Op.text s.page 60 s.y ("- " ++ e.question ++ " [" ++ e.choice ++ "]")
  let y1 := s.y - 18
  let withDesc : List Op × ℚ :=
    if pyStrip e.desc = "" then ([], y1)
    else ([Op.text s.page 72 y1 ("• " ++ e.desc)], y1 - 14)
  if withDesc.2 < 120 then
    (qOp :: withDesc.1 ++ [Op.text (s.page + 1) 50 742 "Survey (cont’d):"],
     ⟨s.page + 1, 742 - 20⟩)
  else
    (qOp :: withDesc.1, ⟨s.page, withDesc.2⟩)

/-- The survey loop over all entries, in the stored order of
`survey_responses.items()`. -/
def surveyFlow (s : PState) : List SurveyEntry → List Op × PState
  | [] => ([], s)
  | e :: es =>
      let r1 := surveyStep s e
      let r2 := surveyFlow r1.2 es
      (r1.1 ++ r2.1, r2.2)

/-- Body of the summary loop (source lines 123-129): draw the line at
`x = 60`, advance 16pt, and if `y_pos < 120` start a new page at `y = 742`. -/
def summaryStep (s : PState) (line : String) : List Op × PState :=
  let op := Op.text s.page 60 s.y line
  let y1 := s.y - 16
  if y1 < 120 then ([op], ⟨s.page + 1, 742⟩) else ([op], ⟨s.page, y1⟩)

/-- The summary loop over `summary.split("\n")`. -/
def summaryFlow (s : PState) : List String → List Op × PState
  | [] => ([], s)
  | l :: ls =>
      let r1 := summaryStep s l
      let r2 := summaryFlow r1.2 ls
      (r1.1 ++ r2.1, r2.2)

/-- Body of the image loop (source lines 141-166).  A failed decode (or a
zero intrinsic width) raises inside the `try`, is caught, and leaves the
cursor state untouched.  Otherwise the image is scaled to the fixed target
width 200 preserving aspect ratio; if it would extend below `y = 50` a page
break resets `y = 742`, `x_offset = 50`, `count = 0`; the image is drawn,
and then `x_offset` advances by `200 + 20` when `count` is even, else
`x_offset` resets to 50 and `y_pos` drops by the image height plus 20;
`count` increments. -/
def imageStep (s : IState) : ImgData → List Op × IState
  | none => ([], s)
  | some (iw, ih) =>
      if iw = 0 then ([], s)
      else
        let imgH := 200 * (ih / iw)
        let s1 : IState := if s.y - imgH < 50 then ⟨s.page + 1, 50, 742, 0⟩ else s
        let op := Op.image s1.page s1.x (s1.y - imgH) 200 imgH
        let s2 : IState :=
          if s1.count % 2 = 0 then ⟨s1.page, s1.x + (200 + 20), s1.y, s1.count + 1⟩
          else ⟨s1.page, 50, s1.y - (imgH + 20), s1.count + 1⟩
        ([op], s2)

/-- The image loop over `image_files`, in order. -/
def imageFlow (s : IState) : List ImgData → List Op × IState
  | [] => ([], s)
  | i :: is =>
      let r1 := imageStep s i
      let r2 := imageFlow r1.2 is
      (r1.1 ++ r2.1, r2.2)

/-- The full drawing content of `generate_pdf` (source lines 53-170):
header block, survey section (with its `y < 200` pre-break and section
header at `x = 50`), summary section (same pre-break), and image section
(`y < 300` pre-break), composed in source order. -/
def generate_pdf (r : ReportRecord) : List Op :=
  let hdr := headerOps r
  let sPre : ℕ × ℚ := if hdr.2 < 200 then (1, 742) else (0, hdr.2)
  let sHeader := Op.text sPre.1 50 sPre.2 "Survey:"
  let sv := surveyFlow ⟨sPre.1, sPre.2 - 20⟩ r.survey
  let mPre : ℕ × ℚ :=
    if sv.2.y < 200 then (sv.2.page + 1, 742) else (sv.2.page, sv.2.y)
  let mHeader := Op.text mPre.1 50 mPre.2 "Brief Summary:"
  let sm := summaryFlow ⟨mPre.1, mPre.2 - 20⟩ (r.summary.splitOn "\n")
  let iPre : ℕ × ℚ :=
    if sm.2.y < 300 then (sm.2.page + 1, 742) else (sm.2.page, sm.2.y)
  let im := imageFlow ⟨iPre.1, 50, iPre.2, 0⟩ r.images
  hdr.1 ++ [sHeader] ++ sv.1 ++ [mHeader] ++ sm.1 ++ im.1

/-- The canonical 9 survey questions, in the order the form builds
`survey_responses` (source lines 238-301). -/
def canonicalQuestions : List String :=
  ["Did weather cause any delays?",
   "Any instruction Contractor and Contractor’s actions?",
   "Any general comments or unusual events?",
   "Any schedule delays occur?",
   "Materials on site?",
   "Contractor and Subcontractor Equipment onsite?",
   "Testing?",
   "Any visitors on site?",
   "Any accidents on site today?"]

/-- Batch truncation at ingestion (source lines 314-316 / 324-326):
`if len(batch) > 4: batch = batch[:4]`. -/
def truncateBatch (b : List ImgData) : List ImgData :=
  if 4 < b.length then b.take 4 else b

/-- `all_images = uploaded_batch1 + uploaded_batch2` after truncation
(source line 328). -/
def all_images (b1 b2 : List ImgData) : List ImgData :=
  truncateBatch b1 ++ truncateBatch b2

/-- File-system state: the set of temporary files currently on disk,
identified by numeric names. -/
abbrev FS := List ℕ

/-- A fresh temporary-file name, distinct from every file present
(`tempfile.NamedTemporaryFile` guarantees a fresh name). -/
def freshName (fs : FS) : ℕ := fs.foldr max 0 + 1

/-- Result of running `generate_pdf` with its file effects: either the
function returns the path of the written PDF (`ok path ops fs`), or an
exception propagates out of it (`err fs`); in both cases `fs` is the disk
state when control leaves the function. -/
inductive RenderOutcome where
  | ok (path : ℕ) (ops : List Op) (fs : FS)
  | err (fs : FS)

/-- Disk state after the render returns or raises. -/
def RenderOutcome.fsAfter : RenderOutcome → FS
  | .ok _ _ fs => fs
  | .err fs => fs

/-- The drawn document content (empty when the render raised). -/
def RenderOutcome.opsOut : RenderOutcome → List Op
  | .ok _ ops _ => ops
  | .err _ => []

/-- `generate_pdf` with its file effects (source lines 63-64, 168-170): a
named temporary file is created with `delete=False` at line 63 and is still
on disk when the function exits — on the normal path its path is returned,
and on an exceptional path (`crash = true`, e.g. an I/O error inside
`c.save()`) the exception propagates with the file still present, since the
function has no `finally` cleanup. -/
def generate_pdf_run (r : ReportRecord) (crash : Bool) (fs : FS) : RenderOutcome :=
  let name := freshName fs
  let fs1 := name :: fs
  if crash then .err fs1 else .ok name (generate_pdf r) fs1

/-- The `Generate & Email` button handler (source lines 338-373) as it
affects the disk: it calls `generate_pdf` outside any `try`, so an
exception from the render aborts the handler before cleanup; on the normal
path `send_email` runs inside `try/except` and then
`os.unlink(pdf_path)` (itself in `try/except: pass`) removes the file
regardless of the email result. -/
def buttonHandler (r : ReportRecord) (crash : Bool) (fs : FS) : FS :=
  match generate_pdf_run r crash fs with
  | .err fs1 => fs1
  | .ok path _ fs1 => fs1.erase path

/-- Outcome of the module-level weather request (source lines 30-48): a
successful response carrying the Celsius temperature, or one of the failure
modes — a network error from `requests.get`, a non-2xx status raised by
`raise_for_status()`, a parsing failure (`json()` or the
`["current_weather"]["temperature"]` lookup), or a timeout. -/
inductive WeatherOutcome where
  | ok (tempC : ℚ)
  | networkError
  | httpStatusError
  | parseError
  | timeoutError

/-- Python `round` to the nearest integer, halves to even (Python 3
semantics, exact on the rational value of the float). -/
def roundHalfEven (q : ℚ) : ℤ :=
  if q - ⌊q⌋ < 1 / 2 then ⌊q⌋
  else if 1 / 2 < q - ⌊q⌋ then ⌊q⌋ + 1
  else if ⌊q⌋ % 2 = 0 then ⌊q⌋ else ⌊q⌋ + 1

/-- Python `round(x, 1)`. -/
def round1 (q : ℚ) : ℚ := (roundHalfEven (q * 10) : ℚ) / 10

/-- The weather lookup as a total function: the whole block sits inside
`try: ... except Exception: temperature_f = None`, so every failure mode
collapses to `none`, and a success yields
`round(temp_c * 9/5 + 32, 1)` (source lines 30-48). -/
def fetchTemperature : WeatherOutcome → Option ℚ
  | .ok tc => some (round1 (tc * 9 / 5 + 32))
  | .networkError => none
  | .httpStatusError => none
  | .parseError => none
  | .timeoutError => none

/-- The timeout passed to `requests.get` (source line 41): `timeout=5`,
in seconds. -/
def requestTimeoutSeconds : ℕ := 5

/-- A concrete record with no temperature reading, used as the concrete
input of several checks below. -/
def recNone : ReportRecord :=
  { visitor := "J. Smith"
    visit_date := "2025-06-01"
    address := ""
    current_time := "2025-06-01 10:00:00"
    temperature := none
    summary := "All good."
    survey := []
    images := [] }

/-- A survey record storing the nine canonical questions in reversed
order, every answer `N/A`, no comments: it satisfies the data-model
invariant (each canonical question exactly once) while its storage order
is not the canonical order. -/
def revEntries : List SurveyEntry :=
  canonicalQuestions.reverse.map fun q => ⟨q, "N/A", ""⟩

/-- A batch of five decodable images (200 x 200 points each). -/
def fiveImgs : List ImgData := List.replicate 5 (some ((200 : ℚ), 200))

/-- Whether the token `N/A` occurs anywhere in a string. -/
def containsNA (s : String) : Bool :=
  (List.range (s.toList.length + 1)).any fun i =>
    (s.toList.drop i).take 3 == "N/A".toList

/-- Relation between consecutive operations of the summary flow: if the
vertical cursor would drop below 120 after the 16pt line advance, the next
line lands at the top (`y = 742`) of the next page; otherwise it lands 16pt
lower on the same page. -/
def sRel (a b : Op) : Prop :=
  if a.yPos - 16 < 120 then b.page = a.page + 1 ∧ b.yPos = 742
  else b.page = a.page ∧ b.yPos = a.yPos - 16

/-- Relation between consecutive operations of the survey flow: a comment
sub-line (drawn at `x = 72`) is always immediately preceded by its
question line (drawn at `x = 60`) on the same page. -/
def cRel (a b : Op) : Prop := b.xPos = 72 → a.xPos = 60 ∧ a.page = b.page

/-!
Theorems.  The `claim_*` theorems settle the claims; the remaining
theorems are shared helper lemmas.
-/

@[simp] theorem Op.page_text (p : ℕ) (x y : ℚ) (s : String) :
    (Op.text p x y s).page = p := rfl

@[simp] theorem Op.page_image (p : ℕ) (x y w h : ℚ) :
    (Op.image p x y w h).page = p := rfl

@[simp] theorem Op.xPos_text (p : ℕ) (x y : ℚ) (s : String) :
    (Op.text p x y s).xPos = x := rfl

@[simp] theorem Op.xPos_image (p : ℕ) (x y w h : ℚ) :
    (Op.image p x y w h).xPos = x := rfl

@[simp] theorem Op.yPos_text (p : ℕ) (x y : ℚ) (s : String) :
    (Op.text p x y s).yPos = y := rfl

@[simp] theorem Op.yPos_image (p : ℕ) (x y w h : ℚ) :
    (Op.image p x y w h).yPos = y := rfl

@[simp] theorem Op.str_text (p : ℕ) (x y : ℚ) (s : String) :
    (Op.text p x y s).str = s := rfl

@[simp] theorem Op.str_image (p : ℕ) (x y w h : ℚ) :
    (Op.image p x y w h).str = "" := rfl

/-- C8: every failure outcome of the weather lookup (network error, bad
HTTP status, parsing failure, timeout) collapses to `none` — the
module-level `except Exception` swallows them all, so nothing propagates
to the form — and the request carries the fixed 5-second timeout. -/
theorem claim_C8 :
    fetchTemperature .networkError = none ∧
      fetchTemperature .httpStatusError = none ∧
      fetchTemperature .parseError = none ∧
      fetchTemperature .timeoutError = none ∧
      requestTimeoutSeconds = 5 ∧ 0 < requestTimeoutSeconds :=
  ⟨rfl, rfl, rfl, rfl, rfl, Nat.succ_pos 4⟩

/-- C7 counterexample: render is not free of side effects observable
outside its return value — it creates the output PDF as a named temporary
file on disk (line 63, `delete=False`) and returns the file's path, so the
file-system state after a successful render differs from the state
before it. -/
theorem claim_C7_counterexample :
    ¬ ∀ (r : ReportRecord) (fs : FS), (generate_pdf_run r false fs).fsAfter = fs := by
  intro hAll
  have h0 := hAll recNone []
  simp [generate_pdf_run, RenderOutcome.fsAfter, freshName] at h0

/-- C7 amended: the drawn document content is a function of the record
alone — two renders of the same record from any two disk states produce
identical content — and the only file-system effect of a successful render
is the creation of the single fresh output file whose path is returned. -/
theorem claim_C7_amended (r : ReportRecord) (fs1 fs2 : FS) :
    (generate_pdf_run r false fs1).opsOut = (generate_pdf_run r false fs2).opsOut ∧
      (generate_pdf_run r false fs1).fsAfter = freshName fs1 :: fs1 :=
  ⟨rfl, rfl⟩

/-- C9: the temporary PDF is NOT released on every exit path.  When an
exception is raised mid-render (after the temporary file is created at
line 63), `generate_pdf` has no cleanup handler and the button handler
calls it outside any `try`, so the file stays on disk; on the normal path
the handler's `os.unlink` does remove it. -/
theorem claim_C9_bug :
    freshName [] ∈ buttonHandler recNone true [] ∧
      buttonHandler recNone false [] = [] := by
  constructor
  · simp [buttonHandler, generate_pdf_run]
  · simp [buttonHandler, generate_pdf_run]

/-- C3 counterexample: on a record whose temperature is absent, the header
contains only the four lines title / visitor / date / time — the
temperature line is omitted entirely (lines 84-86 draw it only under
`if temperature is not None`), and no drawn string contains the token
`N/A` anywhere. -/
theorem claim_C3_counterexample :
    recNone.temperature = none ∧
      (headerOps recNone).1 =
        [Op.text 0 50 742 "Site Visit Report",
         Op.text 0 50 712 "Visitor: J. Smith",
         Op.text 0 300 712 "Date: 2025-06-01",
         Op.text 0 50 692 "Time (America/Denver): 2025-06-01 10:00:00"] ∧
      ((headerOps recNone).1.all fun o => !containsNA o.str) = true := by
  refine ⟨rfl, ?_, ?_⟩
  · decide
  · decide

/-- C3 amended: the header emits the three fixed lines plus the time line,
one more line when the address is non-blank, and one more line only when a
temperature is present — an absent temperature omits the line rather than
drawing a placeholder. -/
theorem claim_C3_amended (r : ReportRecord) :
    (headerOps r).1.length =
      4 + (if pyStrip r.address = "" then 0 else 1) +
        (match r.temperature with | none => 0 | some _ => 1) := by
  unfold headerOps
  cases ht : r.temperature <;> by_cases ha : pyStrip r.address = "" <;> simp [ha, ht]

/-- Shape of the summary flow: one text operation per input line carrying
exactly that line at `x = 60`, consecutive operations related by the
line-advance / page-break recurrence `sRel`, and the first operation drawn
at the incoming cursor position. -/
theorem summaryFlow_spec (s : PState) (ls : List String) :
    (summaryFlow s ls).1.map Op.str = ls ∧
      (summaryFlow s ls).1.map Op.xPos = List.replicate ls.length 60 ∧
      List.Chain' sRel (summaryFlow s ls).1 ∧
      ∀ o ∈ (summaryFlow s ls).1.head?, o.page = s.page ∧ o.yPos = s.y := by
  induction ls generalizing s with
  | nil => simp [summaryFlow]
  | cons l ls ih =>
    by_cases hy : s.y - 16 < 120
    · obtain ⟨ih1, ih2, ih3, ih4⟩ := ih ⟨s.page + 1, 742⟩
      simp only [summaryFlow, summaryStep, if_pos hy, List.cons_append,
        List.nil_append]
      refine ⟨by simp [ih1], by simp [ih2, List.replicate_succ], ?_, ?_⟩
      · rw [List.chain'_cons']
        refine ⟨?_, ih3⟩
        intro b hb
        obtain ⟨hp, hv⟩ := ih4 b hb
        simp [sRel, hy, hp, hv]
      · intro o ho
        simp only [List.head?_cons, Option.mem_def, Option.some.injEq] at ho
        subst ho
        exact ⟨rfl, rfl⟩
    · obtain ⟨ih1, ih2, ih3, ih4⟩ := ih ⟨s.page, s.y - 16⟩
      simp only [summaryFlow, summaryStep, if_neg hy, List.cons_append,
        List.nil_append]
      refine ⟨by simp [ih1], by simp [ih2, List.replicate_succ], ?_, ?_⟩
      · rw [List.chain'_cons']
        refine ⟨?_, ih3⟩
        intro b hb
        obtain ⟨hp, hv⟩ := ih4 b hb
        simp [sRel, hy, hp, hv]
      · intro o ho
        simp only [List.head?_cons, Option.mem_def, Option.some.injEq] at ho
        subst ho
        exact ⟨rfl, rfl⟩

/-- C4: the summary flow emits exactly one output line per input line of
`summary.split("\n")` — the drawn strings are the input lines verbatim, in
order, never re-wrapped — and consecutive lines obey the recurrence: the
cursor advances 16pt per line, and whenever it would drop below the 120pt
threshold the next line starts a new page at the 742pt top margin. -/
theorem claim_C4 (p : ℕ) (y : ℚ) (summary : String) :
    ((summaryFlow ⟨p, y⟩ (summary.splitOn "\n")).1.map Op.str
        = summary.splitOn "\n") ∧
      ((summaryFlow ⟨p, y⟩ (summary.splitOn "\n")).1.length
        = (summary.splitOn "\n").length) ∧
      List.Chain' sRel (summaryFlow ⟨p, y⟩ (summary.splitOn "\n")).1 := by
  obtain ⟨h1, h2, h3, h4⟩ := summaryFlow_spec ⟨p, y⟩ (summary.splitOn "\n")
  exact ⟨h1, by simpa using congrArg List.length h1, h3⟩

/-- Unpacking helper: a head test written with `Option.all`. -/
theorem headNotComment {l : List Op}
    (h : (l.head?.all fun o => decide (o.xPos ≠ 72)) = true) :
    ∀ b ∈ l.head?, b.xPos ≠ 72 := by
  cases l with
  | nil => simp
  | cons a l => simpa using h

/-- An operation not drawn at `x = 72` may follow anything. -/
theorem cRel_of_not72 {a b : Op} (h : b.xPos ≠ 72) : cRel a b :=
  fun h72 => absurd h72 h

/-- C10: in the survey flow every comment sub-line (the only operations
drawn at `x = 72`) is immediately preceded by its question line (drawn at
`x = 60`) on the same page — the `y_pos < 120` page-break check runs only
after a complete entry, so no entry is split across a page break — and the
flow never begins with a comment line. -/
theorem claim_C10 (s : PState) (es : List SurveyEntry) :
    List.Chain' cRel (surveyFlow s es).1 ∧
      ((surveyFlow s es).1.head?.all fun o => decide (o.xPos ≠ 72)) = true := by
  induction es generalizing s with
  | nil => simp [surveyFlow]
  | cons e es ih =>
    by_cases hd : pyStrip e.desc = ""
    · by_cases hy : s.y - 18 < 120
      · obtain ⟨ihc, ihh⟩ := ih ⟨s.page + 1, 742 - 20⟩
        simp only [surveyFlow, surveyStep, hd, hy, eq_self_iff_true, ite_true,
          List.nil_append, List.cons_append]
        refine ⟨?_, by norm_num [Option.all]⟩
        rw [List.chain'_cons]
        refine ⟨cRel_of_not72 (by norm_num), List.chain'_cons'.2 ⟨?_, ihc⟩⟩
        intro b hb
        exact cRel_of_not72 (headNotComment ihh b hb)
      · obtain ⟨ihc, ihh⟩ := ih ⟨s.page, s.y - 18⟩
        simp only [surveyFlow, surveyStep, hd, hy, eq_self_iff_true, ite_true,
          ite_false, List.nil_append, List.cons_append]
        refine ⟨?_, by norm_num [Option.all]⟩
        exact List.chain'_cons'.2
          ⟨fun b hb => cRel_of_not72 (headNotComment ihh b hb), ihc⟩
    · by_cases hy : s.y - 18 - 14 < 120
      · obtain ⟨ihc, ihh⟩ := ih ⟨s.page + 1, 742 - 20⟩
        simp only [surveyFlow, surveyStep, hd, hy, eq_self_iff_true, ite_true,
          ite_false, List.nil_append, List.cons_append]
        refine ⟨?_, by norm_num [Option.all]⟩
        rw [List.chain'_cons, List.chain'_cons]
        refine ⟨fun _ => ⟨rfl, rfl⟩, cRel_of_not72 (by norm_num),
          List.chain'_cons'.2 ⟨?_, ihc⟩⟩
        intro b hb
        exact cRel_of_not72 (headNotComment ihh b hb)
      · obtain ⟨ihc, ihh⟩ := ih ⟨s.page, s.y - 18 - 14⟩
        simp only [surveyFlow, surveyStep, hd, hy, eq_self_iff_true, ite_true,
          ite_false, List.nil_append, List.cons_append]
        refine ⟨?_, by norm_num [Option.all]⟩
        rw [List.chain'_cons]
        refine ⟨fun _ => ⟨rfl, rfl⟩, List.chain'_cons'.2 ⟨?_, ihc⟩⟩
        intro b hb
        exact cRel_of_not72 (headNotComment ihh b hb)

/-- The question/answer lines of the survey flow (the operations at
`x = 60`) are exactly the entries in their stored order, formatted
`- question [choice]`. -/
theorem surveyFlow_questionTexts (s : PState) (es : List SurveyEntry) :
    ((surveyFlow s es).1.filter fun o => decide (o.xPos = 60)).map Op.str
      = es.map fun e => "- " ++ e.question ++ " [" ++ e.choice ++ "]" := by
  induction es generalizing s with
  | nil => simp [surveyFlow]
  | cons e es ih =>
    by_cases hd : pyStrip e.desc = ""
    · by_cases hy : s.y - 18 < 120
      · simp only [surveyFlow, surveyStep, hd, hy, eq_self_iff_true, ite_true,
          List.nil_append, List.cons_append]
        norm_num [List.filter_cons, ih]
      · simp only [surveyFlow, surveyStep, hd, hy, eq_self_iff_true, ite_true,
          ite_false, List.nil_append, List.cons_append]
        norm_num [List.filter_cons, ih]
    · by_cases hy : s.y - 18 - 14 < 120
      · simp only [surveyFlow, surveyStep, hd, hy, eq_self_iff_true, ite_true,
          ite_false, List.nil_append, List.cons_append]
        norm_num [List.filter_cons, ih]
      · simp only [surveyFlow, surveyStep, hd, hy, eq_self_iff_true, ite_true,
          ite_false, List.nil_append, List.cons_append]
        norm_num [List.filter_cons, ih]

/-- C2 counterexample: a record that satisfies the data-model invariant
(its stored questions are a permutation of the canonical nine) but stores
them in reversed order renders its question/answer lines in that reversed
storage order, not in canonical order — `generate_pdf` iterates
`survey_responses.items()` as stored and performs no reordering. -/
theorem claim_C2_counterexample :
    (revEntries.map fun e => e.question).Perm canonicalQuestions ∧
      ¬ (((surveyFlow ⟨0, 722⟩ revEntries).1.filter
            fun o => decide (o.xPos = 60)).map Op.str
          = canonicalQuestions.map fun q => "- " ++ q ++ " [N/A]") := by
  constructor
  · simp only [revEntries, List.map_map]
    exact (List.reverse_perm canonicalQuestions).map _
  · rw [surveyFlow_questionTexts]
    decide

/-- C2 amended: the survey section renders one `- question [choice]` line
per stored entry, in the record's storage order; canonical order appears in
the document exactly when the record stores the entries canonically (as the
form in this program always does), not regardless of storage order. -/
theorem claim_C2_amended (s : PState) (es : List SurveyEntry) :
    ((surveyFlow s es).1.filter fun o => decide (o.xPos = 60)).map Op.str
      = es.map fun e => "- " ++ e.question ++ " [" ++ e.choice ++ "]" :=
  surveyFlow_questionTexts s es

/-- C6: an image that fails to decode is skipped entirely — deleting it
from the input sequence changes neither the emitted operations nor the
final cursor state, wherever it sits in the sequence, so rendering
proceeds with the remaining images exactly as if it were absent. -/
theorem claim_C6 (s : IState) (xs ys : List ImgData) (b : ImgData)
    (hb : decodesB b = false) :
    imageFlow s (xs ++ b :: ys) = imageFlow s (xs ++ ys) := by
  induction xs generalizing s with
  | nil =>
    have hstep : imageStep s b = ([], s) := by
      cases b with
      | none => rfl
      | some p =>
        obtain ⟨iw, ih⟩ := p
        have hiw : iw = 0 := by
          by_contra hne
          simp [decodesB, hne] at hb
        simp [imageStep, hiw]
    simp [imageFlow, hstep]
  | cons a xs ih =>
    simp only [List.cons_append, imageFlow, List.append_eq]
    rw [ih]

/-- C6 witness: the concrete undecodable image. -/
theorem claim_C6_witness :
    decodesB none = false ∧
      imageFlow ⟨0, 50, 742, 0⟩ ([] ++ none :: []) = imageFlow ⟨0, 50, 742, 0⟩ ([] ++ []) :=
  ⟨rfl, claim_C6 ⟨0, 50, 742, 0⟩ [] [] none rfl⟩

/-- The image loop draws exactly one image per decodable input. -/
theorem imageFlow_length (s : IState) (imgs : List ImgData) :
    (imageFlow s imgs).1.length = (imgs.filter decodesB).length := by
  induction imgs generalizing s with
  | nil => rfl
  | cons a imgs ih =>
    cases a with
    | none => simp [imageFlow, imageStep, decodesB, ih]
    | some p =>
      obtain ⟨iw, ihh⟩ := p
      by_cases hiw : iw = 0
      · simp [imageFlow, imageStep, decodesB, hiw, ih]
      · simp [imageFlow, imageStep, decodesB, hiw, ih]

/-- C5 counterexample: `generate_pdf` does not reject or ignore an
oversized batch — handed a single batch of five decodable images, its image
loop draws all five. -/
theorem claim_C5_counterexample :
    ¬ ((imageFlow ⟨0, 50, 742, 0⟩ fiveImgs).1.length ≤ 4) := by
  rw [imageFlow_length]
  decide

/-- C5 amended: the Layout Engine itself performs no batch-size check — it
draws every decodable image it receives, however many — and the ≤ 4 per
batch (hence ≤ 8 total) bound is enforced solely by the ingestion
truncation `batch[:4]` before `generate_pdf` is called. -/
theorem claim_C5_amended (s : IState) (imgs b1 b2 : List ImgData) :
    (imageFlow s imgs).1.length = (imgs.filter decodesB).length ∧
      (all_images b1 b2).length ≤ 8 ∧
      (4 < b1.length → (truncateBatch b1).length = 4) := by
  refine ⟨imageFlow_length s imgs, ?_, ?_⟩
  · have l1 : (truncateBatch b1).length ≤ 4 := by
      unfold truncateBatch
      split
      · simp
      · omega
    have l2 : (truncateBatch b2).length ≤ 4 := by
      unfold truncateBatch
      split
      · simp
      · omega
    simp only [all_images, List.length_append]
    omega
  · intro h4
    simp [truncateBatch, h4]
    omega

/-- C5 witness: the five-image batch is truncated to four at ingestion. -/
theorem claim_C5_witness :
    4 < fiveImgs.length ∧ (truncateBatch fiveImgs).length = 4 :=
  ⟨by decide, (claim_C5_amended ⟨0, 50, 742, 0⟩ [] fiveImgs []).2.2 (by decide)⟩

/-- C1 counterexample: after the row consisting of a 200pt-tall first
image and a 100pt-tall second image, the vertical cursor has advanced by
the SECOND image's height plus the gap (120pt), not by the row maximum
plus the gap (220pt) as the claim requires — the code's
`y_pos -= img_h + gap` on the odd-count branch uses only the height of the
image that closed the row. -/
theorem claim_C1_counterexample :
    ((imageFlow ⟨0, 50, 742, 0⟩ [some (200, 200), some (200, 100)]).2.y
        = 742 - (100 + 20)) ∧
      ¬ ((imageFlow ⟨0, 50, 742, 0⟩ [some (200, 200), some (200, 100)]).2.y
        = 742 - (max 200 100 + 20)) := by
  have hm : max (200 : ℚ) 100 = 200 := max_eq_left (by norm_num)
  norm_num [imageFlow, imageStep, hm]

/-- C1 amended: absent a bottom-margin page break, the image loop places
images in rigid pairs: after the first image of a pair `x_offset` advances
by the fixed scaled width plus the gap (to 270), and after the second it
resets to the left margin while `y_pos` drops by that second image's
height plus the gap — a `count % 2` rule that never consults the right
margin and uses the closing image's height, not the row maximum. -/
theorem claim_C1_amended (p : ℕ) (y0 h1 h2 : ℚ)
    (hb1 : 50 ≤ y0 - h1) (hb2 : 50 ≤ y0 - h2) :
    imageFlow ⟨p, 50, y0, 0⟩ [some (200, h1), some (200, h2)] =
      ([Op.image p 50 (y0 - h1) 200 h1, Op.image p 270 (y0 - h2) 200 h2],
        ⟨p, 50, y0 - (h2 + 20), 2⟩) := by
  have e1 : (200 : ℚ) * (h1 / 200) = h1 := by ring
  have e2 : (200 : ℚ) * (h2 / 200) = h2 := by ring
  have n1 : ¬ (y0 - h1 < 50) := not_lt.mpr hb1
  have n2 : ¬ (y0 - h2 < 50) := not_lt.mpr hb2
  simp only [imageFlow, imageStep]
  norm_num [e1, e2, n1, n2]

/-- C1 witness: the amended behaviour at the concrete 200pt/100pt pair. -/
theorem claim_C1_witness :
    (50 ≤ (742 : ℚ) - 200) ∧ (50 ≤ (742 : ℚ) - 100) ∧
      imageFlow ⟨0, 50, 742, 0⟩ [some (200, 200), some (200, 100)] =
        ([Op.image 0 50 (742 - 200) 200 200, Op.image 0 270 (742 - 100) 200 100],
          ⟨0, 50, 742 - (100 + 20), 2⟩) :=
  ⟨by norm_num, by norm_num,
    claim_C1_amended 0 742 200 100 (by norm_num) (by norm_num)⟩

end SiteVisit
